import Mathlib

/-!
Verification of the ESP32 4WD car firmware (`src/sketch/4wd.ino`).

The sketch is shallowly embedded: the mutable globals and output pins become
an explicit `CarState` record threaded through the functions; `digitalRead`
results and the `pulseIn` echo width become explicit inputs; C++ `float`
arithmetic is modelled over `ℚ` with the literal `0.034` taken as the exact
rational `34/1000`; the `while (1)` halt in `setup` becomes `Option.none`.
-/

namespace FourWD

/-- Digital level on a pin: `false` is `LOW`, `true` is `HIGH`. -/
abbrev Level := Bool

/-- Arduino constant `LOW`. -/
def LOW : Level := false

/-- Arduino constant `HIGH`. -/
def HIGH : Level := true

/-- The firmware state: the four motor direction outputs `IN1..IN4`, the
ultrasonic trigger output `TRIG_PIN`, the global `bool autonomousMode`, and
the globals `long duration` and `float distance` written by `getDistance`. -/
structure CarState where
  in1 : Level
  in2 : Level
  in3 : Level
  in4 : Level
  trig : Level
  autonomousMode : Bool
  duration : Nat
  distance : ℚ
  deriving DecidableEq, Repr

/-- The four motor direction outputs `(IN1, IN2, IN3, IN4)` of a state. -/
def outputs (s : CarState) : Level × Level × Level × Level :=
  (s.in1, s.in2, s.in3, s.in4)

/-- Embedding of `getDistance()` (lines 41-54).  The argument `echo` is the
value returned by `pulseIn(ECHO_PIN, HIGH, 30000)`: `0` on timeout, else the
measured pulse width in microseconds.  The trigger pulse ends with
`digitalWrite(TRIG_PIN, LOW)`; the globals `duration` and `distance` are
updated as in the source; the raw conversion is `duration * 0.034 / 2` with
the clamp `if (distance > 20.0) distance = 20.0`. -/
def getDistance (echo : Nat) (s : CarState) : ℚ × CarState :=
  let s1 : CarState := { s with trig := LOW, duration := echo }
  if s1.duration = 0 then (20, s1)
  else
    let s2 : CarState := { s1 with distance := (s1.duration : ℚ) * (34/1000) / 2 }
    let s3 : CarState := if s2.distance > 20 then { s2 with distance := 20 } else s2
    (s3.distance, s3)

/-- Embedding of `forward()` (lines 57-60). -/
def forward (s : CarState) : CarState :=
  { s with in1 := LOW, in2 := HIGH, in3 := LOW, in4 := HIGH }

/-- Embedding of `backward()` (lines 61-64). -/
def backward (s : CarState) : CarState :=
  { s with in1 := HIGH, in2 := LOW, in3 := HIGH, in4 := LOW }

/-- Embedding of `left()` (lines 65-68). -/
def left (s : CarState) : CarState :=
  { s with in1 := LOW, in2 := HIGH, in3 := HIGH, in4 := LOW }

/-- Embedding of `right()` (lines 69-72). -/
def right (s : CarState) : CarState :=
  { s with in1 := HIGH, in2 := LOW, in3 := LOW, in4 := HIGH }

/-- Embedding of `stopCar()` (lines 73-76). -/
def stopCar (s : CarState) : CarState :=
  { s with in1 := LOW, in2 := LOW, in3 := LOW, in4 := LOW }

/-- The five movement commands of the spec's `DriveCommand` type. -/
inductive DriveCommand where
  | Forward
  | Backward
  | Left
  | Right
  | Stop
  deriving DecidableEq, Repr

/-- The spec's `apply(DriveCommand)`: dispatch to the corresponding motor
function of the sketch. -/
def apply : DriveCommand → CarState → CarState
  | .Forward, s => forward s
  | .Backward, s => backward s
  | .Left, s => left s
  | .Right, s => right s
  | .Stop, s => stopCar s

/-- The sensor values supplied by the hardware during one `handleData` call:
the `pulseIn` echo width, the three `digitalRead` levels, the DHT readings
and the six MPU6050 event components. -/
structure SensorInputs where
  echo : Nat
  irVal : Level
  flameVal : Level
  pirVal : Level
  temp : ℚ
  hum : ℚ
  accelX : ℚ
  accelY : ℚ
  accelZ : ℚ
  gyroX : ℚ
  gyroY : ℚ
  gyroZ : ℚ
  deriving DecidableEq, Repr

/-- The structured content of the `/data` JSON response built by
`handleData` (lines 90-100), one field per JSON key. -/
structure DataResponse where
  distance : ℚ
  ir : String
  motion : String
  temperature : ℚ
  humidity : ℚ
  flame : String
  accel : ℚ × ℚ × ℚ
  gyro : ℚ × ℚ × ℚ
  autonomous : String
  deriving DecidableEq, Repr

/-- Embedding of `handleData()` (lines 79-103): reads the distance (which
mutates the `duration`/`distance` globals and the trigger pin), reads the
digital sensors and drivers, and assembles the response, mapping each raw
level through the source's conditional expressions. -/
def handleData (env : SensorInputs) (s : CarState) : DataResponse × CarState :=
  let r := getDistance env.echo s
  let dist := r.1
  let s1 := r.2
  let resp : DataResponse :=
    { distance := dist
      ir := if env.irVal = LOW then "Object Detected" else "Clear"
      motion := if env.pirVal = HIGH then "Motion Detected" else "No Motion"
      temperature := env.temp
      humidity := env.hum
      flame := if env.flameVal = LOW then "Flame Detected" else "No Flame"
      accel := (env.accelX, env.accelY, env.accelZ)
      gyro := (env.gyroX, env.gyroY, env.gyroZ)
      autonomous := if s1.autonomousMode then "ENABLED" else "DISABLED" }
  (resp, s1)

/-- Embedding of `handleEnableAuto()` (line 187); this is the spec's
`enableAutonomous()`. -/
def handleEnableAuto (s : CarState) : CarState :=
  { s with autonomousMode := true }

/-- Embedding of `handleDisableAuto()` (line 188); this is the spec's
`disableAutonomous()`. -/
def handleDisableAuto (s : CarState) : CarState :=
  { s with autonomousMode := false }

/-- The spec's `isAutonomous()`: read the `autonomousMode` flag. -/
def isAutonomous (s : CarState) : Bool :=
  s.autonomousMode

/-- Embedding of `setup()` (lines 190-236) restricted to its state effects:
`stopCar()` is called, then `mpu.begin()` is checked; on failure the sketch
enters `while (1) delay(10);` and never returns, modelled as `none`. -/
def setup (mpuOk : Bool) (s0 : CarState) : Option CarState :=
  let s1 := stopCar s0
  if mpuOk then some s1 else none

/-- One incoming HTTP request, as routed in `setup()` (lines 226-234).
Requests for `/` are omitted: `handleRoot` builds static markup and does not
touch the state. -/
inductive Request where
  | dataReq (env : SensorInputs)
  | forwardReq
  | backwardReq
  | leftReq
  | rightReq
  | stopReq
  | enableAutoReq
  | disableAutoReq
  deriving Repr

/-- State effect of serving one request: each control handler (lines
182-188) calls its motor function or flips the mode flag; `/data` runs
`handleData`. -/
def serve : Request → CarState → CarState
  | .dataReq env, s => (handleData env s).2
  | .forwardReq, s => forward s
  | .backwardReq, s => backward s
  | .leftReq, s => left s
  | .rightReq, s => right s
  | .stopReq, s => stopCar s
  | .enableAutoReq, s => handleEnableAuto s
  | .disableAutoReq, s => handleDisableAuto s

/-- The service loop (`loop()`, lines 238-241) on a finite request trace. -/
def loopRun (reqs : List Request) (s : CarState) : CarState :=
  reqs.foldl (fun s r => serve r s) s

/-- A whole run of the process: `setup` followed by the service loop; if
initialization halts, no serving state exists. -/
def systemRun (mpuOk : Bool) (s0 : CarState) (reqs : List Request) : Option CarState :=
  (setup mpuOk s0).map (loopRun reqs)

/-- A state applying a sequence of drive commands from a start state. -/
def runDrive (cmds : List DriveCommand) (s : CarState) : CarState :=
  cmds.foldl (fun s c => apply c s) s

/-- Safety predicate on the H-bridge outputs: neither motor pair has both
complementary signals high. -/
def motorSafe (s : CarState) : Bool :=
  !(s.in1 && s.in2) && !(s.in3 && s.in4)

/-- A concrete state used for witnesses: all outputs low, manual mode. -/
def s0 : CarState :=
  { in1 := LOW, in2 := LOW, in3 := LOW, in4 := LOW, trig := LOW,
    autonomousMode := false, duration := 0, distance := 0 }

/-- A concrete state with autonomous mode already enabled. -/
def sAuto : CarState :=
  { in1 := LOW, in2 := LOW, in3 := LOW, in4 := LOW, trig := LOW,
    autonomousMode := true, duration := 0, distance := 0 }

end FourWD

namespace FourWD

/-- Helper: `getDistance` writes only the trigger pin and the
`duration`/`distance` globals; the motor outputs and the mode flag are
untouched. -/
theorem getDistance_frame (echo : Nat) (s : CarState) :
    (getDistance echo s).2.in1 = s.in1 ∧ (getDistance echo s).2.in2 = s.in2 ∧
    (getDistance echo s).2.in3 = s.in3 ∧ (getDistance echo s).2.in4 = s.in4 ∧
    (getDistance echo s).2.autonomousMode = s.autonomousMode := by
  unfold getDistance
  dsimp only
  split
  · exact ⟨rfl, rfl, rfl, rfl, rfl⟩
  · dsimp only
    split <;> exact ⟨rfl, rfl, rfl, rfl, rfl⟩

/-- Helper: the response fields of `handleData` other than `distance`,
expressed directly over the inputs and the starting state. -/
theorem handleData_fields (env : SensorInputs) (s : CarState) :
    (handleData env s).1.ir = (if env.irVal = LOW then "Object Detected" else "Clear") ∧
    (handleData env s).1.motion = (if env.pirVal = HIGH then "Motion Detected" else "No Motion") ∧
    (handleData env s).1.flame = (if env.flameVal = LOW then "Flame Detected" else "No Flame") ∧
    (handleData env s).1.autonomous = (if s.autonomousMode then "ENABLED" else "DISABLED") := by
  refine ⟨rfl, rfl, rfl, ?_⟩
  show (if (getDistance env.echo s).2.autonomousMode then "ENABLED" else "DISABLED") = _
  rw [(getDistance_frame env.echo s).2.2.2.2]

/-- C1: on echo timeout (`pulseIn` returning 0) `getDistance` returns the
sentinel 20.0; otherwise it returns `duration * 0.034 / 2` clamped at 20.0;
hence the returned distance never exceeds 20.0. -/
theorem echo_distance_capped (echo : Nat) (s : CarState) :
    (echo = 0 → (getDistance echo s).1 = 20) ∧
    (echo ≠ 0 → (getDistance echo s).1 = min ((echo : ℚ) * (34/1000) / 2) 20) ∧
    (getDistance echo s).1 ≤ 20 := by
  have hfst : (getDistance echo s).1 =
      if echo = 0 then 20 else min ((echo : ℚ) * (34/1000) / 2) 20 := by
    unfold getDistance
    dsimp only
    split
    · simp_all
    · dsimp only
      split
    
      · rename_i hgt
        rw [min_def, if_neg (not_le.mpr hgt)]
      · rename_i hle
        rw [min_def, if_pos (not_lt.mp hle)]
  refine ⟨fun h0 => by rw [hfst, if_pos h0], fun h0 => by rw [hfst, if_neg h0], ?_⟩
  rw [hfst]
  split
  · exact le_refl 20
  · exact min_le_right _ _

/-- Witness for C1 at the concrete echoes 0 (timeout) and 3000 (raw value
51 cm, above the cap). -/
theorem echo_distance_capped_witness :
    (getDistance 0 s0).1 = 20 ∧
    (getDistance 3000 s0).1 = min ((3000 : ℚ) * (34/1000) / 2) 20 :=
  ⟨(echo_distance_capped 0 s0).1 rfl, (echo_distance_capped 3000 s0).2.1 (by decide)⟩

end FourWD

namespace FourWD

/-- C2: `apply` realizes the fixed truth table on the four direction
outputs, for every prior output state; `Stop` drives all four low. -/
theorem apply_truth_table (s : CarState) :
    outputs (apply .Forward s) = (LOW, HIGH, LOW, HIGH) ∧
    outputs (apply .Backward s) = (HIGH, LOW, HIGH, LOW) ∧
    outputs (apply .Left s) = (LOW, HIGH, HIGH, LOW) ∧
    outputs (apply .Right s) = (HIGH, LOW, LOW, HIGH) ∧
    outputs (apply .Stop s) = (LOW, LOW, LOW, LOW) :=
  ⟨rfl, rfl, rfl, rfl, rfl⟩

/-- Counterexample to C3 as stated: starting from a state with autonomous
mode already enabled, `enableAutonomous` then `disableAutonomous` is not a
no-op on the mode state — it leaves the mode disabled. -/
theorem enable_disable_not_noop :
    isAutonomous (handleDisableAuto (handleEnableAuto sAuto)) ≠ isAutonomous sAuto := by
  decide

/-- C3 amended: `enableAutonomous` then `isAutonomous` gives true;
`disableAutonomous` then `isAutonomous` gives false; enable-then-disable
always leaves the mode disabled, hence is a net no-op on the mode state
exactly for starting states whose mode is disabled. -/
theorem enable_disable_mode (s : CarState) :
    isAutonomous (handleEnableAuto s) = true ∧
    isAutonomous (handleDisableAuto s) = false ∧
    isAutonomous (handleDisableAuto (handleEnableAuto s)) = false ∧
    (isAutonomous s = false →
      isAutonomous (handleDisableAuto (handleEnableAuto s)) = isAutonomous s) :=
  ⟨rfl, rfl, rfl, fun h => h.symm⟩

/-- Witness for C3 at the startup state (mode disabled). -/
theorem enable_disable_mode_witness :
    isAutonomous (handleEnableAuto s0) = true ∧
    isAutonomous (handleDisableAuto (handleEnableAuto s0)) = isAutonomous s0 :=
  ⟨(enable_disable_mode s0).1, (enable_disable_mode s0).2.2.2 rfl⟩

/-- C4: `apply` is idempotent — applying any command twice from any
starting state equals applying it once (it fully overwrites all four
outputs). -/
theorem apply_idempotent (c : DriveCommand) (s : CarState) :
    apply c (apply c s) = apply c s := by
  cases c <;> rfl

/-- C5: serving `/data` mutates neither the mode flag nor the four motor
direction outputs. -/
theorem handleData_readonly (env : SensorInputs) (s : CarState) :
    (handleData env s).2.autonomousMode = s.autonomousMode ∧
    outputs (handleData env s).2 = outputs s := by
  obtain ⟨h1, h2, h3, h4, h5⟩ := getDistance_frame env.echo s
  refine ⟨h5, ?_⟩
  show ((handleData env s).2.in1, (handleData env s).2.in2,
        (handleData env s).2.in3, (handleData env s).2.in4) = (s.in1, s.in2, s.in3, s.in4)
  exact congrArg₂ Prod.mk h1 (congrArg₂ Prod.mk h2 (congrArg₂ Prod.mk h3 h4))

/-- C6: the mode toggles only flip the mode flag — the four motor outputs
and every other state component are unchanged. -/
theorem mode_toggle_no_motor_effect (s : CarState) :
    outputs (handleEnableAuto s) = outputs s ∧
    (handleEnableAuto s).trig = s.trig ∧
    (handleEnableAuto s).duration = s.duration ∧
    (handleEnableAuto s).distance = s.distance ∧
    outputs (handleDisableAuto s) = outputs s ∧
    (handleDisableAuto s).trig = s.trig ∧
    (handleDisableAuto s).duration = s.duration ∧
    (handleDisableAuto s).distance = s.distance :=
  ⟨rfl, rfl, rfl, rfl, rfl, rfl, rfl, rfl⟩

/-- C7: polarity of the textual fields of the `/data` response — `ir` and
`flame` are active-low, `motion` is active-high, and `autonomous` mirrors
the mode flag. -/
theorem data_field_polarity (env : SensorInputs) (s : CarState) :
    ((handleData env s).1.ir = "Object Detected" ↔ env.irVal = LOW) ∧
    ((handleData env s).1.ir = "Clear" ↔ env.irVal = HIGH) ∧
    ((handleData env s).1.flame = "Flame Detected" ↔ env.flameVal = LOW) ∧
    ((handleData env s).1.flame = "No Flame" ↔ env.flameVal = HIGH) ∧
    ((handleData env s).1.motion = "Motion Detected" ↔ env.pirVal = HIGH) ∧
    ((handleData env s).1.motion = "No Motion" ↔ env.pirVal = LOW) ∧
    ((handleData env s).1.autonomous = "ENABLED" ↔ s.autonomousMode = true) ∧
    ((handleData env s).1.autonomous = "DISABLED" ↔ s.autonomousMode = false) := by
  obtain ⟨h1, h2, h3, h4⟩ := handleData_fields env s
  rw [h1, h2, h3, h4]
  cases hi : env.irVal <;> cases hf : env.flameVal <;> cases hp : env.pirVal <;>
    cases hm : s.autonomousMode <;> decide

/-- C8: if `mpu.begin()` fails, `setup` never completes, so no serving
state exists and no sequence of interface requests is ever handled. -/
theorem mpu_fail_halts (s : CarState) (reqs : List Request) :
    setup false s = none ∧ systemRun false s reqs = none :=
  ⟨rfl, rfl⟩

/-- C9: a 1176 µs echo yields the raw distance 1176*0.034/2 = 19.992,
which is below the 20.0 cap, passes through unclamped, and is the distance
reported in the `/data` response. -/
theorem echo_1176_reading (env : SensorInputs) (s : CarState) (h : env.echo = 1176) :
    (getDistance 1176 s).1 = (1176 : ℚ) * (34/1000) / 2 ∧
    (getDistance 1176 s).1 = 19992/1000 ∧
    (19992/1000 : ℚ) < 20 ∧
    (handleData env s).1.distance = 19992/1000 := by
  have hd : (getDistance 1176 s).1 = 19992/1000 := by
    unfold getDistance
    norm_num
  refine ⟨by rw [hd]; norm_num, hd, by norm_num, ?_⟩
  show (getDistance env.echo s).1 = 19992/1000
  rw [h]
  exact hd

/-- Witness for C9 at a concrete sensor-input record with echo 1176. -/
theorem echo_1176_reading_witness :
    (handleData (SensorInputs.mk 1176 HIGH HIGH LOW 25 40 0 0 0 0 0 0) s0).1.distance
      = 19992/1000 :=
  (echo_1176_reading (SensorInputs.mk 1176 HIGH HIGH LOW 25 40 0 0 0 0 0 0) s0 rfl).2.2.2

/-- Helper for C10: `runDrive` preserves the pair-safety predicate. -/
theorem runDrive_safe (cmds : List DriveCommand) (s : CarState)
    (h : motorSafe s = true) : motorSafe (runDrive cmds s) = true := by
  induction cmds generalizing s with
  | nil => exact h
  | cons c rest ih => exact ih (apply c s) (by cases c <;> rfl)

/-- C10: no drive operation drives both complementary signals of a motor
pair high, and every state reachable from the startup state (motors
stopped) by drive commands satisfies this safety predicate. -/
theorem motor_pairs_never_both_high (c : DriveCommand) (s : CarState)
    (cmds : List DriveCommand) :
    ¬((apply c s).in1 = HIGH ∧ (apply c s).in2 = HIGH) ∧
    ¬((apply c s).in3 = HIGH ∧ (apply c s).in4 = HIGH) ∧
    motorSafe (stopCar s) = true ∧
    motorSafe (runDrive cmds (stopCar s)) = true := by
  refine ⟨?_, ?_, rfl, runDrive_safe cmds (stopCar s) rfl⟩ <;> cases c <;>
    simp [apply, forward, backward, left, right, stopCar, HIGH, LOW]

end FourWD
